import Mathlib

/-!
Verification of the Concert-Mate Music-Service ingestion pipeline
(`src/services/yandex_music_service.py`, `src/main.py`, `src/model/*.py`,
`src/response/*.py`).

The Python code is shallowly embedded:

* JSON values are the inductive `Json`; Python `dict`s coming from JSON are
  association lists `List (String × Json)`; the Python value `None` inside a
  JSON object is `Json.null`.
* Every service-level computation returns an `Outcome`: `ok`, the two service
  exceptions `notFoundExc` / `internalExc` (NotFoundException /
  InternalServiceErrorException from `src/services/exceptions.py`), or
  `otherExc`, which stands for any other Python exception (KeyError,
  TypeError, AttributeError, ValueError, pydantic ValidationError, ...).
  `except Exception` blocks in the source catch all of these.
* The aiohttp session is modelled by `World.fetch : String → HttpOutcome`,
  mapping a URI to either a transport/JSON-decoding failure or a decoded
  response (status, reason, JSON body).  `datetime.strptime` with format
  `%Y-%m-%dT%H:%M:%S%z` is modelled by the oracle `World.strptime`, returning
  `some` opaque token on a parse success and `none` on a ValueError; the code
  under verification never inspects the parsed value.
* Model restrictions (noted where used): pydantic's lax numeric-string
  coercions and float values are not modelled; JSON numbers are integers.
-/

/-- A JSON value, as decoded by `response.json()` in the source.  Python
`None` is `null`; objects keep their key order as an association list
(Python dicts preserve insertion order and have unique keys). -/
inductive Json where
  | null : Json
  | bool (b : Bool) : Json
  | num (n : Int) : Json
  | str (s : String) : Json
  | arr (xs : List Json) : Json
  | obj (kvs : List (String × Json)) : Json

/-- Python truthiness (`if x:`) for decoded JSON values: `None`, `False`,
`0`, `""`, `[]` and the empty dict are falsy, everything else is truthy. -/
def Json.truthy : Json → Bool
  | .null => false
  | .bool b => b
  | .num n => n != 0
  | .str s => !s.isEmpty
  | .arr xs => !xs.isEmpty
  | .obj kvs => !kvs.isEmpty

/-- Result of a service-level Python computation. -/
inductive Outcome (α : Type) where
  | ok (a : α) : Outcome α
  | notFoundExc (msg : String) : Outcome α
  | internalExc (msg : String) : Outcome α
  | otherExc : Outcome α
deriving DecidableEq

/-- Sequencing of Python statements: an exception aborts the rest. -/
def Outcome.andThen : Outcome α → (α → Outcome β) → Outcome β
  | .ok a, f => f a
  | .notFoundExc m, _ => .notFoundExc m
  | .internalExc m, _ => .internalExc m
  | .otherExc, _ => .otherExc

def Outcome.isOk : Outcome α → Bool
  | .ok _ => true
  | _ => false

def Outcome.isNotFoundExc : Outcome α → Bool
  | .notFoundExc _ => true
  | _ => false

def Outcome.isInternalExc : Outcome α → Bool
  | .internalExc _ => true
  | _ => false

def Outcome.toOption : Outcome α → Option α
  | .ok a => some a
  | _ => none

/-- A `try ... except Exception as e: raise InternalServiceErrorException(msg)`
block around a computation: every exception (service exceptions included,
since they subclass `Exception`) is replaced by
`InternalServiceErrorException(msg)`. -/
def catch_as_internal (msg : String) : Outcome α → Outcome α
  | .ok a => .ok a
  | _ => .internalExc msg

/-- `get_dict_value` from the source: `d[key]`, raising `KeyError` when the
key is absent. -/
def get_dict_value (kvs : List (String × Json)) (k : String) : Outcome Json :=
  match List.lookup k kvs with
  | some v => .ok v
  | none => .otherExc

/-- `get_dict_value_or_none` from the source: `d.get(key)`; an absent key
gives Python `None`, i.e. `Json.null`. -/
def get_dict_value_or_none (kvs : List (String × Json)) (k : String) : Json :=
  (List.lookup k kvs).getD .null

/-- `contains_key` from the source: `d.get(key) is not None`.  A key stored
with value `null` counts as absent. -/
def contains_key (kvs : List (String × Json)) (k : String) : Bool :=
  match List.lookup k kvs with
  | some .null => false
  | some _ => true
  | none => false

/-- Python iteration `for x in v` over a decoded JSON value: lists yield
their elements, strings their one-character substrings, dicts their keys;
other values raise `TypeError`. -/
def pyIterate : Json → Option (List Json)
  | .arr xs => some xs
  | .str s => some (s.data.map fun c => .str (String.mk [c]))
  | .obj kvs => some (kvs.map fun kv => .str kv.1)
  | _ => none

/-- The `int(x)` builtin on a decoded JSON value (floats not modelled). -/
def py_int : Json → Option Int
  | .num n => some n
  | .bool b => some (if b then 1 else 0)
  | .str s => s.toInt?
  | _ => none

/-! ## Domain entities (`src/model/*.py`, pydantic models)

Field names, order and validation constraints follow the pydantic models.
`Concert.concert_datetime` carries the opaque token produced by the
`strptime` oracle. -/

/-- `src/model/artist.py`: frozen pydantic model; equality (and hashing) is
by the `(name, yandex_music_id)` fields, which is exactly the structure
equality derived here. -/
structure Artist where
  name : String
  yandex_music_id : Int
deriving DecidableEq

/-- `src/model/price.py`. -/
structure Price where
  price : Int
  currency : String
deriving DecidableEq

/-- `src/model/concert.py`. -/
structure Concert where
  title : String
  afisha_url : String
  city : String
  place : Option String
  address : Option String
  concert_datetime : Option Nat
  map_url : Option String
  images : List String
  min_price : Option Price
  artists : List Artist
deriving DecidableEq

/-- `src/model/track_list.py`. -/
structure TrackList where
  url : String
  title : String
  image : Option String
  artists : List Artist
deriving DecidableEq

/-- `src/response/response_code.py` (`IntEnum`). -/
inductive ResponseCode where
  | SUCCESS
  | INTERNAL_ERROR
  | ARTIST_NOT_FOUND
  | TRACK_LIST_NOT_FOUND
deriving DecidableEq

/-- The numeric value of each `ResponseCode` member (0, 1, 2, 3). -/
def ResponseCode.toNat : ResponseCode → Nat
  | .SUCCESS => 0
  | .INTERNAL_ERROR => 1
  | .ARTIST_NOT_FOUND => 2
  | .TRACK_LIST_NOT_FOUND => 3

/-- `src/response/response_status.py`; the defaults are
`code = SUCCESS`, `message = ResponseCode.SUCCESS.name`. -/
structure ResponseStatus where
  code : ResponseCode
  message : String
deriving DecidableEq

def responseStatusDefault : ResponseStatus := ⟨.SUCCESS, "SUCCESS"⟩

/-- `src/response/concerts_response.py`. -/
structure ConcertsResponse where
  status : ResponseStatus
  concerts : Option (List Concert)
deriving DecidableEq

/-- `src/response/track_list_response.py`. -/
structure TrackListResponse where
  status : ResponseStatus
  track_list : Option TrackList
deriving DecidableEq

/-! ## pydantic validation of individual fields

pydantic v2 in its default (lax) mode, restricted to the value shapes the
claims exercise: a `str` field accepts exactly a JSON string (no
int-to-str coercion exists in v2), an `Optional[str]` field additionally
accepts `None`, an `int` field accepts a JSON integer (the lax
numeric-string coercion is not modelled), `list[str]` accepts a JSON array
of strings. -/

/-- A required `str = Field(min_length=1)` pydantic field. -/
def pydantic_str1 : Json → Outcome String
  | .str s => if s.isEmpty then .otherExc else .ok s
  | _ => .otherExc

/-- An `Optional[str]` pydantic field. -/
def pydantic_opt_str : Json → Outcome (Option String)
  | .null => .ok none
  | .str s => .ok (some s)
  | _ => .otherExc

/-- A `list[str]` pydantic field (element check). -/
def json_str_list : List Json → Outcome (List String)
  | [] => .ok []
  | .str s :: rest => (json_str_list rest).andThen fun r => .ok (s :: r)
  | _ :: _ => .otherExc

/-- A `list[str]` pydantic field. -/
def pydantic_str_list : Json → Outcome (List String)
  | .arr xs => json_str_list xs
  | _ => .otherExc

/-! ## URL classifier (`parse_track_list`, lines 55-56 and 81-93)

The two compiled patterns are
`^.*/users/(\S+)/playlists/(\S+)$` and `^.*/album/(\S+)$`, applied with
`re.match`.  The model reproduces Python semantics on the character level:

* `.` matches every character except the newline;
* `\S` matches every character outside Python's whitespace set (the ASCII
  whitespace characters plus the Unicode space separators recognised by
  `re` on `str` patterns);
* `$` matches at the end of the string or just before a newline that is the
  last character;
* `.*` and `\S+` are greedy with backtracking: the engine commits to the
  longest prefix for `.*` (and then the longest group for the first `\S+`)
  that lets the rest of the pattern match.

Greedy backtracking is modelled by enumerating split positions longest
first (`splits`) and taking the first one that matches
(`List.findSome?`). -/

/-- The characters matched by `\s` (hence excluded from `\S`) by Python's
`re` on `str` patterns. -/
def pySpaceChars : List Char :=
  [' ', '\t', '\n', '\x0b', '\x0c', '\r',
   '\x1c', '\x1d', '\x1e', '\x1f', '\x85', '\xa0',
   ' ', ' ', ' ', ' ', ' ', ' ', ' ',
   ' ', ' ', ' ', ' ', ' ',
   ' ', ' ', ' ', ' ', '　']

def isPySpace (c : Char) : Bool := pySpaceChars.contains c

/-- All decompositions `l = a ++ b`, longest `a` first — the order in which
a greedy quantifier followed by the rest of the pattern tries them. -/
def splits (l : List Char) : List (List Char × List Char) :=
  ((List.range (l.length + 1)).reverse).map fun n => (l.take n, l.drop n)

def usersLit : List Char := "/users/".data
def playlistsLit : List Char := "/playlists/".data
def albumLit : List Char := "/album/".data

/-- Matching `(\S+)/playlists/(\S+)$` against `rest`, greedy on the first
group; returns the two captured groups. -/
def match_tail (rest : List Char) : Option (List Char × List Char) :=
  (splits rest).findSome? fun up =>
    if (!up.1.isEmpty && up.1.all (fun c => !isPySpace c))
        && playlistsLit.isPrefixOf up.2 then
      let p := up.2.drop playlistsLit.length
      if !p.isEmpty && p.all (fun c => !isPySpace c) then some (up.1, p) else none
    else none

/-- Matching `^.*/users/(\S+)/playlists/(\S+)` against all of `l`. -/
def match_playlist_core (l : List Char) : Option (List Char × List Char) :=
  (splits l).findSome? fun ar =>
    if ar.1.all (fun c => !(c == '\n')) && usersLit.isPrefixOf ar.2 then
      match_tail (ar.2.drop usersLit.length)
    else none

/-- Matching `^.*/album/(\S+)` against all of `l`. -/
def match_album_core (l : List Char) : Option (List Char) :=
  (splits l).findSome? fun ar =>
    if ar.1.all (fun c => !(c == '\n')) && albumLit.isPrefixOf ar.2 then
      let a := ar.2.drop albumLit.length
      if !a.isEmpty && a.all (fun c => !isPySpace c) then some a else none
    else none

/-- The effect of the final `$`: it also matches just before a newline that
ends the string.  Since no other pattern element can consume a newline, a
match of the anchored pattern exists exactly when the core pattern matches
the string with one trailing newline removed. -/
def strip_trailing_newline (l : List Char) : List Char :=
  if l.getLast? = some '\n' then l.dropLast else l

/-- `re.match(self.__playlist_url_pattern, track_list_url)` with the two
captured groups. -/
def pyMatchPlaylist (s : String) : Option (String × String) :=
  (match_playlist_core (strip_trailing_newline s.data)).map fun up =>
    (String.mk up.1, String.mk up.2)

/-- `re.match(self.__album_url_pattern, track_list_url)` with its captured
group. -/
def pyMatchAlbum (s : String) : Option String :=
  (match_album_core (strip_trailing_newline s.data)).map String.mk

/-- The three-way routing decision of `parse_track_list`, playlist pattern
tried first. -/
inductive TrackListRoute where
  | playlist (user_id playlist_id : String)
  | album (album_id : String)
  | unrecognized
deriving DecidableEq

def classifyTrackListUrl (url : String) : TrackListRoute :=
  match pyMatchPlaylist url with
  | some up => .playlist up.1 up.2
  | none =>
    match pyMatchAlbum url with
    | some a => .album a
    | none => .unrecognized

/-- The shape named by the spec: the URL ends in `/users/U/playlists/P`
with `U`, `P` nonempty sequences of non-whitespace characters. -/
def PlaylistShape (l u p : List Char) : Prop :=
  (∃ a, l = a ++ usersLit ++ u ++ playlistsLit ++ p) ∧
    u ≠ [] ∧ (∀ c ∈ u, isPySpace c = false) ∧
    p ≠ [] ∧ (∀ c ∈ p, isPySpace c = false)

/-- The shape named by the spec: the URL ends in `/album/A` with `A` a
nonempty sequence of non-whitespace characters. -/
def AlbumShape (l a : List Char) : Prop :=
  (∃ b, l = b ++ albumLit ++ a) ∧ a ≠ [] ∧ (∀ c ∈ a, isPySpace c = false)

/-! ## Entity extractors (static methods of `YandexMusicService`) -/

/-- `__get_cover_link` (lines 438-451): strip the trailing two-character
`%%` size placeholder and append `400x400`, prefixed with `https://`;
`None` maps to `None`.  The Python slice `abstract_uri[:-2]` removes the
last two characters, clamping at the empty string. -/
def get_cover_link : Option String → Option String
  | none => none
  | some abstract_uri => some ("https://" ++ abstract_uri.dropRight 2 ++ "400x400")

/-- The `ogImage` value handed to `__get_cover_link`: the Python call
succeeds on `None` and on strings and raises `TypeError` otherwise. -/
def cover_arg : Json → Outcome (Option String)
  | .null => .ok (get_cover_link none)
  | .str s => .ok (get_cover_link (some s))
  | _ => .otherExc

/-- `__extract_artist` (lines 386-395): reads `name` and `id` and builds the
pydantic `Artist` (`name` nonempty string, `yandex_music_id` a nonnegative
integer). -/
def extract_artist (artist : Json) : Outcome Artist :=
  match artist with
  | .obj kvs =>
    (get_dict_value kvs "name").andThen fun nameJ =>
    (get_dict_value kvs "id").andThen fun idJ =>
    (pydantic_str1 nameJ).andThen fun name =>
    match idJ with
    | .num n => if n < 0 then .otherExc else .ok ⟨name, n⟩
    | _ => .otherExc
  | _ => .otherExc

/-- The `minPrice` block of `__extract_concert` (lines 319-324): only a
truthy `minPrice` value is read; `int(...)` converts the `value` field and
the pydantic `Price` requires a nonnegative price and a nonempty currency
string. -/
def extract_min_price (mpj : Json) : Outcome (Option Price) :=
  if mpj.truthy then
    match mpj with
    | .obj m =>
      (get_dict_value m "value").andThen fun vj =>
      match py_int vj with
      | none => .otherExc
      | some v =>
        (get_dict_value m "currency").andThen fun cj =>
        if v < 0 then .otherExc
        else (pydantic_str1 cj).andThen fun cur => .ok (some (Price.mk v cur))
    | _ => .otherExc
  else .ok none

/-- `__extract_concert` (lines 305-337).  The first statement parses the
required `datetime` key with `strptime` (a missing key raises `KeyError`, a
non-string `TypeError`, an unparsable string `ValueError`).  The parsed
value is then passed to the `Concert` constructor under the keyword name
`datetime`, which is not a field of the pydantic model
(`src/model/concert.py` names the field `concert_datetime`), so pydantic
silently drops it and the constructed `Concert` has `concert_datetime =
none`.  The remaining arguments follow the source lines 316-336. -/
def extract_concert (strptime : String → Option Nat) (concert : Json) : Outcome Concert :=
  match concert with
  | .obj kvs =>
    (get_dict_value kvs "datetime").andThen fun dtj =>
    (match dtj with
     | .str s =>
       match strptime s with
       | some d => Outcome.ok d
       | none => Outcome.otherExc
     | _ => Outcome.otherExc).andThen fun _concert_datetime =>
    (match get_dict_value_or_none kvs "images" with
     | .null => Outcome.ok []
     | j => pydantic_str_list j).andThen fun images =>
    (get_dict_value kvs "artist").andThen fun artistJ =>
    (extract_min_price (get_dict_value_or_none kvs "minPrice")).andThen fun mp =>
    (get_dict_value kvs "concertTitle").andThen fun titleJ =>
    (pydantic_str1 titleJ).andThen fun title =>
    (get_dict_value kvs "afishaUrl").andThen fun auJ =>
    (pydantic_str1 auJ).andThen fun afisha_url =>
    (get_dict_value kvs "city").andThen fun cityJ =>
    (pydantic_str1 cityJ).andThen fun city =>
    (pydantic_opt_str (get_dict_value_or_none kvs "place")).andThen fun place =>
    (get_dict_value kvs "address").andThen fun addrJ =>
    (pydantic_opt_str addrJ).andThen fun address =>
    (get_dict_value kvs "mapUrl").andThen fun muJ =>
    (pydantic_opt_str muJ).andThen fun map_url =>
    (extract_artist artistJ).andThen fun a =>
    .ok ⟨title, afisha_url, city, place, address, none, map_url, images, mp, [a]⟩
  | _ => .otherExc

/-- A Python list comprehension `[f(x) for x in xs]` over `Outcome`-valued
`f`: evaluated left to right, the first exception aborts the whole list. -/
def mapOutcome (f : Json → Outcome α) : List Json → Outcome (List α)
  | [] => .ok []
  | x :: xs => (f x).andThen fun y => (mapOutcome f xs).andThen fun ys => .ok (y :: ys)

/-- Adding one artist to the `set` of artists, keeping first-occurrence
order.  Python set semantics identify artists equal under the frozen
pydantic equality, i.e. equal `(name, yandex_music_id)` pairs; the set's
iteration order is unspecified in Python, so the claims below only use
membership and duplicate-freeness of the resulting list. -/
def insertArtist (l : List Artist) (a : Artist) : List Artist :=
  if a ∈ l then l else l ++ [a]

/-- The artist-gathering loop of `__extract_playlist` (lines 349-353) on
one `tracks` element: `short_track["track"]["artists"]` is iterated and
each element is extracted. -/
def gather_from_tracks : List Json → Outcome (List Artist)
  | [] => .ok []
  | st :: rest =>
    (match st with
     | .obj stkvs => get_dict_value stkvs "track"
     | _ => Outcome.otherExc).andThen fun track =>
    (match track with
     | .obj tkvs => get_dict_value tkvs "artists"
     | _ => Outcome.otherExc).andThen fun artistsJ =>
    (match pyIterate artistsJ with
     | some ajs => Outcome.ok ajs
     | none => Outcome.otherExc).andThen fun ajs =>
    (mapOutcome extract_artist ajs).andThen fun as1 =>
    (gather_from_tracks rest).andThen fun rest1 =>
    .ok (as1 ++ rest1)

/-- All artist occurrences encountered by the `__extract_playlist` loop, in
traversal order and with duplicates.  In the source the occurrences are
added to a `set` as they are found; since any failure aborts the whole
extraction, gathering first and deduplicating afterwards is equivalent. -/
def playlist_gathered_artists (playlist : Json) : Outcome (List Artist) :=
  match playlist with
  | .obj kvs =>
    (get_dict_value kvs "tracks").andThen fun tracksJ =>
    match pyIterate tracksJ with
    | some ts => gather_from_tracks ts
    | none => .otherExc
  | _ => .otherExc

/-- `__extract_playlist` (lines 339-362). -/
def extract_playlist (url : String) (playlist : Json) : Outcome TrackList :=
  (playlist_gathered_artists playlist).andThen fun gathered =>
  (match playlist with
   | .obj kvs => Outcome.ok kvs
   | _ => Outcome.otherExc).andThen fun kvs =>
  (cover_arg (get_dict_value_or_none kvs "ogImage")).andThen fun image =>
  (get_dict_value kvs "title").andThen fun titleJ =>
  (pydantic_str1 titleJ).andThen fun title =>
  if url.isEmpty then .otherExc
  else .ok ⟨url, title, image, gathered.foldl insertArtist []⟩

/-- The artist occurrences read by `__extract_album` (lines 374-375), in
order and with duplicates. -/
def album_gathered_artists (album : Json) : Outcome (List Artist) :=
  match album with
  | .obj kvs =>
    (get_dict_value kvs "artists").andThen fun artistsJ =>
    (match pyIterate artistsJ with
     | some items => Outcome.ok items
     | none => Outcome.otherExc).andThen fun items =>
    mapOutcome extract_artist items
  | _ => .otherExc

/-- `__extract_album` (lines 364-384); `list(set(parsed_artists))`
deduplicates the parsed artists. -/
def extract_album (url : String) (album : Json) : Outcome TrackList :=
  (album_gathered_artists album).andThen fun parsed =>
  (match album with
   | .obj kvs => Outcome.ok kvs
   | _ => Outcome.otherExc).andThen fun kvs =>
  (cover_arg (get_dict_value_or_none kvs "ogImage")).andThen fun image =>
  (get_dict_value kvs "title").andThen fun titleJ =>
  (pydantic_str1 titleJ).andThen fun title =>
  if url.isEmpty then .otherExc
  else .ok ⟨url, title, image, parsed.foldl insertArtist []⟩

/-! ## Upstream client and orchestration (`YandexMusicService`) -/

/-- What `await self.__session.get(url=uri)` followed by
`await response.json()` produces: either some transport or JSON-decoding
exception (`failure`) or a decoded response with its HTTP status, reason
phrase and JSON body. -/
inductive HttpOutcome where
  | failure
  | response (status : Nat) (reason : String) (body : Json)

/-- The environment of one service call: the aiohttp session (responses by
URI) and the `datetime.strptime` oracle. -/
structure World where
  fetch : String → HttpOutcome
  strptime : String → Option Nat

/-- URI builders (lines 397-436). -/
def artist_brief_info_api_uri (artist_id : Int) : String :=
  "/artists/" ++ toString artist_id ++ "/brief-info"

def artist_api_uri (artist_id : Int) : String :=
  "/artists/" ++ toString artist_id

def playlist_api_uri (user_id playlist_id : String) : String :=
  "/users/" ++ user_id ++ "/playlists/" ++ playlist_id

def album_api_uri (album_id : String) : String :=
  "/albums/" ++ album_id

/-- `__fetch_yandex_music_api_data` (lines 261-303).  Transport and
JSON-decoding exceptions are caught by the `try` block and re-raised as
`InternalServiceErrorException`; the status dispatch runs in the `else`
clause, whose exceptions are not caught here — in particular, on a 2xx
status with a body that is not a JSON object, `response_json.get` raises
`AttributeError` (the source annotates the body as `dict`). -/
def fetch_yandex_music_api_data (w : World) (uri not_found_message : String) : Outcome Json :=
  match w.fetch uri with
  | .failure => .internalExc ("Downloading JSON from " ++ uri ++ " failed")
  | .response status reason body =>
    if 200 ≤ status ∧ status ≤ 299 then
      match body with
      | .obj kvs =>
        let result := get_dict_value_or_none kvs "result"
        if result.truthy then .ok result
        else .internalExc "Key \"result\" not found in response from Yandex Music API"
      | _ => .otherExc
    else if 400 ≤ status ∧ status ≤ 499 then .notFoundExc not_found_message
    else .internalExc ("Yandex Music API returned \"" ++ toString status ++ " - "
      ++ reason ++ "\" from " ++ uri)

/-- `__fetch_artist_data` (lines 223-259): fetches, requires an `artist`
key (via `contains_key`, so a `null` value counts as missing), and treats a
truthy `error` key inside the artist object as not-found.  On a non-object
result or artist value the Python attribute accesses raise, uncaught. -/
def fetch_artist_data (w : World) (uri not_found_message : String) :
    Outcome (List (String × Json)) :=
  (fetch_yandex_music_api_data w uri not_found_message).andThen fun result =>
  match result with
  | .obj kvs =>
    if contains_key kvs "artist" then
      match List.lookup "artist" kvs with
      | some (.obj akvs) =>
        if (get_dict_value_or_none akvs "error").truthy then .notFoundExc not_found_message
        else .ok kvs
      | some _ => .otherExc
      | none => .otherExc
    else .internalExc ("Response from " ++ uri ++ " does not contains key \"artist\"")
  | _ => .otherExc

/-- `parse_concerts` (lines 95-120): fetch the brief info, then inside a
`try` block read the `concerts` value, iterate it and extract each
concert; any exception there becomes `InternalServiceErrorException`. -/
def parse_concerts (w : World) (artist_id : Int) : Outcome (List Concert) :=
  (fetch_artist_data w (artist_brief_info_api_uri artist_id)
      ("Artist " ++ toString artist_id ++ " not found")).andThen fun kvs =>
  catch_as_internal ("Parsing concerts of artist " ++ toString artist_id ++ " failed")
    ((get_dict_value kvs "concerts").andThen fun cj =>
     match pyIterate cj with
     | some cs => mapOutcome (extract_concert w.strptime) cs
     | none => .otherExc)

/-- `parse_artist` (lines 122-146). -/
def parse_artist (w : World) (artist_id : Int) : Outcome Artist :=
  (fetch_artist_data w (artist_api_uri artist_id)
      ("Artist " ++ toString artist_id ++ " not found")).andThen fun kvs =>
  catch_as_internal ("Parsing info about artist " ++ toString artist_id ++ " failed")
    ((get_dict_value kvs "artist").andThen fun aj => extract_artist aj)

/-- `__parse_playlist` (lines 157-186).  Exactly one fetch is issued, on
the playlist API URI; the returned list records the URIs fetched during
the call. -/
def parse_playlist (w : World) (url user_id playlist_id : String) :
    Outcome TrackList × List String :=
  ((fetch_yandex_music_api_data w (playlist_api_uri user_id playlist_id)
      ("Playlist " ++ url ++ " not found")).andThen
     fun data =>
       catch_as_internal ("Parsing playlist " ++ url ++ " failed")
         (extract_playlist url data),
   [playlist_api_uri user_id playlist_id])

/-- `__parse_album` (lines 188-221): after a successful fetch, a truthy
top-level `error` key is converted to `NotFoundException` before the
extractor runs; only otherwise does the `try` block run `__extract_album`.
The `error` lookup itself (`get_dict_value_or_none`) needs an object
payload, otherwise Python raises uncaught. -/
def parse_album (w : World) (url album_id : String) : Outcome TrackList × List String :=
  ((fetch_yandex_music_api_data w (album_api_uri album_id)
      ("Album " ++ url ++ " not found")).andThen fun data =>
     (match data with
      | .obj kvs => Outcome.ok kvs
      | _ => Outcome.otherExc).andThen fun kvs =>
     if (get_dict_value_or_none kvs "error").truthy then
       .notFoundExc ("Album " ++ url ++ " not found")
     else catch_as_internal ("Parsing album " ++ url ++ " failed") (extract_album url data),
   [album_api_uri album_id])

/-- `parse_track_list` (lines 70-93): route on the URL patterns (playlist
first), or raise `NotFoundException` without fetching anything. -/
def parse_track_list (w : World) (track_list_url : String) :
    Outcome TrackList × List String :=
  match classifyTrackListUrl track_list_url with
  | .playlist u p => parse_playlist w track_list_url u p
  | .album a => parse_album w track_list_url a
  | .unrecognized =>
    (.notFoundExc ("Track list " ++ track_list_url ++ " has incorrect URL"), [])

/-- The artist occurrences underlying the track list a `parse_track_list`
call builds: replays the routing and the fetch and gathers the artist
occurrences (with duplicates) from the payload. -/
def track_list_source_artists (w : World) (url : String) : Option (List Artist) :=
  match classifyTrackListUrl url with
  | .playlist u p =>
    match fetch_yandex_music_api_data w (playlist_api_uri u p)
        ("Playlist " ++ url ++ " not found") with
    | .ok data => (playlist_gathered_artists data).toOption
    | _ => none
  | .album a =>
    match fetch_yandex_music_api_data w (album_api_uri a)
        ("Album " ++ url ++ " not found") with
    | .ok data => (album_gathered_artists data).toOption
    | _ => none
  | .unrecognized => none

/-! ## HTTP layer (`src/main.py`)

The two endpoint handlers, as functions of the service outcome.  A service
exception other than the two service-error kinds propagates to the
framework (`none`). -/

/-- `get_concerts` (lines 88-110).  Note that the
`except InternalServiceErrorException` branch of the source assigns
`ResponseCode.ARTIST_NOT_FOUND` while its message reads
`'Internal service error'`. -/
def get_concerts (w : World) (artist_id : Int) : Option ConcertsResponse :=
  match parse_concerts w artist_id with
  | .ok cs => some ⟨responseStatusDefault, some cs⟩
  | .notFoundExc _ =>
    some ⟨⟨.ARTIST_NOT_FOUND, "Artist " ++ toString artist_id ++ " not found"⟩, none⟩
  | .internalExc _ => some ⟨⟨.ARTIST_NOT_FOUND, "Internal service error"⟩, none⟩
  | .otherExc => none

/-- `get_tracks_list_info` (lines 113-135). -/
def get_tracks_list_info (w : World) (url : String) : Option TrackListResponse :=
  match (parse_track_list w url).1 with
  | .ok tl => some ⟨responseStatusDefault, some tl⟩
  | .notFoundExc _ =>
    some ⟨⟨.TRACK_LIST_NOT_FOUND, "Track list " ++ url ++ " not found"⟩, none⟩
  | .internalExc _ => some ⟨⟨.INTERNAL_ERROR, "Internal service error"⟩, none⟩
  | .otherExc => none

/-! ## Concrete fixtures used by witnesses and counterexamples -/

/-- A session answering every URI with HTTP 404. -/
def w_http404 : World := ⟨fun _ => .response 404 "Not Found" .null, fun _ => none⟩

/-- A session answering every URI with HTTP 500. -/
def w_http500 : World :=
  ⟨fun _ => .response 500 "Internal Server Error" .null, fun _ => none⟩

/-- A session answering every URI with HTTP 200 and body
`{"result": 5}`. -/
def w_result5 : World :=
  ⟨fun _ => .response 200 "OK" (.obj [("result", .num 5)]), fun _ => none⟩

/-- A session answering with HTTP 200 and body
`{"result": {"artist": {"error": "not-found"}}}` — the embedded-error
quirk payload. -/
def w_artist_error : World :=
  ⟨fun _ => .response 200 "OK"
      (.obj [("result", .obj [("artist", .obj [("error", .str "not-found")])])]),
   fun _ => none⟩

/-- The `strptime` oracle used by the concrete fixtures: it accepts exactly
the string `2024-05-01T20:00:00+0300`. -/
def st0 : String → Option Nat :=
  fun s => if s = "2024-05-01T20:00:00+0300" then some 99 else none

/-- A fully valid concert fragment. -/
def frag_ok : Json := .obj [("datetime", .str "2024-05-01T20:00:00+0300"),
  ("concertTitle", .str "T"), ("afishaUrl", .str "U"),
  ("city", .str "C"), ("address", .str "A"), ("mapUrl", .str "M"),
  ("minPrice", .obj [("value", .num 100), ("currency", .str "RUB")]),
  ("artist", .obj [("name", .str "N"), ("id", .num 1)])]

/-- The `Concert` that `__extract_concert` builds from `frag_ok`. -/
def concert_ok : Concert :=
  ⟨"T", "U", "C", none, some "A", none, some "M", [],
   some ⟨100, "RUB"⟩, [⟨"N", 1⟩]⟩

/-- A concert fragment that is valid except that the `datetime` key is
absent. -/
def frag_no_datetime : Json := .obj [
  ("concertTitle", .str "T"), ("afishaUrl", .str "U"),
  ("city", .str "C"), ("address", .str "A"), ("mapUrl", .str "M"),
  ("artist", .obj [("name", .str "N"), ("id", .num 1)])]

/-- A concert fragment that is valid except that the `concertTitle` key is
absent. -/
def frag_no_title : Json := .obj [("datetime", .str "2024-05-01T20:00:00+0300"),
  ("afishaUrl", .str "U"),
  ("city", .str "C"), ("address", .str "A"), ("mapUrl", .str "M"),
  ("artist", .obj [("name", .str "N"), ("id", .num 1)])]

/-- The concerts payload served for artist 1: one valid concert fragment
and one missing `concertTitle`. -/
def concerts_payload : List (String × Json) :=
  [("artist", .obj [("name", .str "N"), ("id", .num 1)]),
   ("concerts", .arr [frag_ok, frag_no_title])]

/-- A session serving `concerts_payload` for every URI. -/
def w_concerts : World :=
  ⟨fun _ => .response 200 "OK" (.obj [("result", .obj concerts_payload)]), st0⟩

/-- A session serving, for every URI, a playlist whose tracks reference
artist `("A", 1)` three times across different tracks and artist
`("B", 2)` once. -/
def w_playlist : World := ⟨fun _ => .response 200 "OK" (.obj [("result", .obj [
  ("title", .str "Mix"),
  ("ogImage", .str "avatars.example/img/%%"),
  ("tracks", .arr [
    .obj [("track", .obj [("artists", .arr [.obj [("name", .str "A"), ("id", .num 1)]])])],
    .obj [("track", .obj [("artists", .arr [.obj [("name", .str "A"), ("id", .num 1)],
                                            .obj [("name", .str "B"), ("id", .num 2)]])])],
    .obj [("track", .obj [("artists", .arr [.obj [("name", .str "A"), ("id", .num 1)]])])]
  ])])]), fun _ => none⟩

/-- The track list `parse_track_list` builds from `w_playlist`. -/
def tl_playlist : TrackList :=
  ⟨"https://music.yandex.ru/users/alice/playlists/1000", "Mix",
   some "https://avatars.example/img/400x400", [⟨"A", 1⟩, ⟨"B", 2⟩]⟩

/-- A session serving, for every URI, an album payload carrying a truthy
top-level `error` key. -/
def w_album_error : World := ⟨fun _ => .response 200 "OK" (.obj [("result", .obj [
  ("error", .str "no-rights"), ("title", .str "X"), ("artists", .arr [])])]),
  fun _ => none⟩

/-- A session whose concerts payload contains one valid fragment and one
fragment lacking the `datetime` key. -/
def w_concerts_no_datetime : World :=
  ⟨fun _ => .response 200 "OK" (.obj [("result", .obj
     [("artist", .obj [("name", .str "N"), ("id", .num 1)]),
      ("concerts", .arr [frag_ok, frag_no_datetime])])]), st0⟩

/-! ## General lemmas about the embedding -/

theorem Outcome.andThen_eq_ok {r : Outcome α} {f : α → Outcome β} {b : β}
    (h : r.andThen f = .ok b) : ∃ a, r = .ok a ∧ f a = .ok b := by
  cases r with
  | ok a => exact ⟨a, rfl, h⟩
  | notFoundExc m => cases h
  | internalExc m => cases h
  | otherExc => cases h

theorem Outcome.ok_andThen {a : α} {f : α → Outcome β} :
    (Outcome.ok a).andThen f = f a := rfl

theorem catch_as_internal_eq_ok {m : String} {r : Outcome α} {a : α}
    (h : catch_as_internal m r = .ok a) : r = .ok a := by
  cases r with
  | ok b => exact h
  | notFoundExc n => cases h
  | internalExc n => cases h
  | otherExc => cases h

theorem catch_as_internal_of_not_ok {m : String} {r : Outcome α}
    (h : r.isOk = false) : catch_as_internal m r = .internalExc m := by
  cases r with
  | ok b => cases h
  | notFoundExc n => rfl
  | internalExc n => rfl
  | otherExc => rfl

theorem mapOutcome_ok_mem {f : Json → Outcome α} {l : List Json} {ys : List α}
    (h : mapOutcome f l = .ok ys) : ∀ c ∈ l, (f c).isOk = true := by
  induction l generalizing ys with
  | nil => intro c hc; cases hc
  | cons x xs ih =>
    intro c hc
    rw [mapOutcome] at h
    obtain ⟨y, hy, h⟩ := Outcome.andThen_eq_ok h
    obtain ⟨ys2, hys2, _⟩ := Outcome.andThen_eq_ok h
    rcases List.mem_cons.mp hc with rfl | hmem
    · rw [hy]; rfl
    · exact ih hys2 c hmem

/-! ## C9: cover link -/

/-- C9: `cover_link(None)` is `None`, and on a string input the result is
`https://`, then the input with exactly its last two characters removed,
then `400x400`; in particular `cover_link("host/path/xx")` is
`https://host/path/400x400`. -/
theorem get_cover_link_spec :
    get_cover_link none = none
  ∧ (∀ s : String,
      get_cover_link (some s) = some ("https://" ++ s.dropRight 2 ++ "400x400"))
  ∧ get_cover_link (some "host/path/xx") = some "https://host/path/400x400" := by
  refine ⟨rfl, fun s => rfl, ?_⟩
  decide

/-! ## C1: three-way classification of the generic fetch -/

/-- C1: every generic fetch is classified three ways.  A transport or
JSON-decoding failure gives `InternalServiceErrorException`; on a 2xx
status with a decoded JSON object body, a truthy `result` value is
returned as success while an absent or falsy `result` gives
`InternalServiceErrorException`; a 4xx status gives `NotFoundException`
with the caller-supplied message; every remaining status gives
`InternalServiceErrorException` whose message mentions the numeric status
and the reason; and no fourth outcome exists for these inputs.  (The
claim's 2xx clauses speak of the `result` key of the decoded body, so the
body is taken to be a JSON object there, matching the source's `dict`
annotation; a non-object 2xx body would raise `AttributeError` in the
uncovered `else` clause.) -/
theorem fetch_api_data_classification (w : World) (uri nfm : String) :
    (w.fetch uri = HttpOutcome.failure →
      fetch_yandex_music_api_data w uri nfm =
        .internalExc ("Downloading JSON from " ++ uri ++ " failed"))
  ∧ (∀ status reason kvs, w.fetch uri = HttpOutcome.response status reason (Json.obj kvs) →
      200 ≤ status → status ≤ 299 →
        ((get_dict_value_or_none kvs "result").truthy = true →
          fetch_yandex_music_api_data w uri nfm = .ok (get_dict_value_or_none kvs "result"))
      ∧ ((get_dict_value_or_none kvs "result").truthy = false →
          fetch_yandex_music_api_data w uri nfm =
            .internalExc "Key \"result\" not found in response from Yandex Music API"))
  ∧ (∀ status reason body, w.fetch uri = HttpOutcome.response status reason body →
      400 ≤ status → status ≤ 499 →
        fetch_yandex_music_api_data w uri nfm = .notFoundExc nfm)
  ∧ (∀ status reason body, w.fetch uri = HttpOutcome.response status reason body →
      ¬ (200 ≤ status ∧ status ≤ 299) → ¬ (400 ≤ status ∧ status ≤ 499) →
        ∃ m, fetch_yandex_music_api_data w uri nfm = .internalExc m
          ∧ (∃ x y, m = x ++ toString status ++ y) ∧ (∃ x y, m = x ++ reason ++ y))
  ∧ ((w.fetch uri = HttpOutcome.failure ∨
        ∃ status reason kvs, w.fetch uri = HttpOutcome.response status reason (Json.obj kvs)) →
      (∃ v, fetch_yandex_music_api_data w uri nfm = .ok v)
      ∨ (∃ m, fetch_yandex_music_api_data w uri nfm = .notFoundExc m)
      ∨ (∃ m, fetch_yandex_music_api_data w uri nfm = .internalExc m)) := by
  refine ⟨?_, ?_, ?_, ?_, ?_⟩
  · intro h
    simp only [fetch_yandex_music_api_data, h]
  · intro status reason kvs h h2 h3
    constructor
    · intro ht
      simp only [fetch_yandex_music_api_data, h, if_pos (And.intro h2 h3), ht, if_true]
    · intro ht
      simp only [fetch_yandex_music_api_data, h, if_pos (And.intro h2 h3), ht]
      rfl
  · intro status reason body h h4 h5
    have hn : ¬ (200 ≤ status ∧ status ≤ 299) := by omega
    simp only [fetch_yandex_music_api_data, h, if_neg hn, if_pos (And.intro h4 h5)]
  · intro status reason body h hn1 hn2
    refine ⟨"Yandex Music API returned \"" ++ toString status ++ " - "
      ++ reason ++ "\" from " ++ uri, ?_, ?_, ?_⟩
    · simp only [fetch_yandex_music_api_data, h, if_neg hn1, if_neg hn2]
    · exact ⟨"Yandex Music API returned \"", " - " ++ reason ++ "\" from " ++ uri, by
        simp [String.append_assoc]⟩
    · exact ⟨"Yandex Music API returned \"" ++ toString status ++ " - ",
        "\" from " ++ uri, by simp [String.append_assoc]⟩
  · intro hcase
    rcases hcase with h | ⟨status, reason, kvs, h⟩
    · have hv : fetch_yandex_music_api_data w uri nfm =
          .internalExc ("Downloading JSON from " ++ uri ++ " failed") := by
        simp only [fetch_yandex_music_api_data, h]
      exact Or.inr (Or.inr ⟨_, hv⟩)
    · by_cases h23 : 200 ≤ status ∧ status ≤ 299
      · by_cases ht : (get_dict_value_or_none kvs "result").truthy = true
        · have hv : fetch_yandex_music_api_data w uri nfm =
              .ok (get_dict_value_or_none kvs "result") := by
            simp only [fetch_yandex_music_api_data, h, if_pos h23, ht, if_true]
          exact Or.inl ⟨_, hv⟩
        · have hv : fetch_yandex_music_api_data w uri nfm =
              .internalExc "Key \"result\" not found in response from Yandex Music API" := by
            simp only [Bool.not_eq_true] at ht
            simp only [fetch_yandex_music_api_data, h, if_pos h23, ht]
            rfl
          exact Or.inr (Or.inr ⟨_, hv⟩)
      · by_cases h45 : 400 ≤ status ∧ status ≤ 499
        · have hv : fetch_yandex_music_api_data w uri nfm = .notFoundExc nfm := by
            simp only [fetch_yandex_music_api_data, h, if_neg h23, if_pos h45]
          exact Or.inr (Or.inl ⟨nfm, hv⟩)
        · have hv : fetch_yandex_music_api_data w uri nfm =
              .internalExc ("Yandex Music API returned \"" ++ toString status ++ " - "
                ++ reason ++ "\" from " ++ uri) := by
            simp only [fetch_yandex_music_api_data, h, if_neg h23, if_neg h45]
          exact Or.inr (Or.inr ⟨_, hv⟩)

theorem fetch_api_data_classification_witness :
    fetch_yandex_music_api_data w_http404 "/artists/1" "Artist 1 not found"
      = .notFoundExc "Artist 1 not found"
  ∧ fetch_yandex_music_api_data w_result5 "/x" "nf" = .ok (.num 5) := by
  constructor
  · exact (fetch_api_data_classification w_http404 "/artists/1" "Artist 1 not found").2.2.1
      404 "Not Found" Json.null rfl (by omega) (by omega)
  · exact ((fetch_api_data_classification w_result5 "/x" "nf").2.1
      200 "OK" [("result", Json.num 5)] rfl (by omega) (by omega)).1 (by decide)

/-! ## C5: artist-specific fetch wrapper -/

/-- C5: after a successful generic fetch, a decoded result without an
`artist` key (as tested by `contains_key`) raises
`InternalServiceErrorException`, and a nested artist object with a truthy
`error` marker raises `NotFoundException` with the caller-supplied
message; in particular HTTP 200 with body
`{"result": {"artist": {"error": "not-found"}}}` makes `parse_artist 123`
raise `NotFoundException`. -/
theorem fetch_artist_data_quirks (w : World) (uri nfm : String) :
    (∀ kvs, fetch_yandex_music_api_data w uri nfm = .ok (.obj kvs) →
      contains_key kvs "artist" = false →
      fetch_artist_data w uri nfm =
        .internalExc ("Response from " ++ uri ++ " does not contains key \"artist\""))
  ∧ (∀ kvs akvs, fetch_yandex_music_api_data w uri nfm = .ok (.obj kvs) →
      List.lookup "artist" kvs = some (.obj akvs) →
      (get_dict_value_or_none akvs "error").truthy = true →
      fetch_artist_data w uri nfm = .notFoundExc nfm)
  ∧ (∀ w2 : World, w2.fetch "/artists/123" = HttpOutcome.response 200 "OK"
        (.obj [("result", .obj [("artist", .obj [("error", .str "not-found")])])]) →
      parse_artist w2 123 = .notFoundExc "Artist 123 not found") := by
  refine ⟨?_, ?_, ?_⟩
  · intro kvs h hck
    simp only [fetch_artist_data, h, Outcome.andThen, hck]
    rfl
  · intro kvs akvs h hlook htr
    have hck : contains_key kvs "artist" = true := by
      simp [contains_key, hlook]
    simp only [fetch_artist_data, h, Outcome.andThen, hck, hlook, htr]
    rfl
  · intro w2 h
    have hfetch : w2.fetch (artist_api_uri 123) = HttpOutcome.response 200 "OK"
        (.obj [("result", .obj [("artist", .obj [("error", .str "not-found")])])]) := by
      rw [show artist_api_uri (123 : Int) = "/artists/123" from by decide]
      exact h
    simp only [parse_artist, fetch_artist_data, fetch_yandex_music_api_data, hfetch]
    rfl

theorem fetch_artist_data_quirks_witness :
    parse_artist w_artist_error 123 = .notFoundExc "Artist 123 not found" :=
  (fetch_artist_data_quirks w_artist_error "/x" "nf").2.2 w_artist_error rfl

/-! ## C6: top-level error key on album payloads -/

/-- C6: when `parse_track_list` routes a URL to the album branch and the
fetch succeeds with a payload carrying a truthy top-level `error` key, the
call raises `NotFoundException` with the album's not-found message and the
extractor never runs; on payloads without such a key the outcome is
exactly the (internally caught) run of `__extract_album`. -/
theorem parse_album_error_key_not_found (w : World) (url a : String)
    (kvs : List (String × Json)) :
    classifyTrackListUrl url = .album a →
    fetch_yandex_music_api_data w (album_api_uri a) ("Album " ++ url ++ " not found")
      = .ok (.obj kvs) →
    ((get_dict_value_or_none kvs "error").truthy = true →
      (parse_track_list w url).1 = .notFoundExc ("Album " ++ url ++ " not found"))
  ∧ ((get_dict_value_or_none kvs "error").truthy = false →
      (parse_track_list w url).1 =
        catch_as_internal ("Parsing album " ++ url ++ " failed")
          (extract_album url (.obj kvs))) := by
  intro hc hf
  constructor
  · intro ht
    simp only [parse_track_list, hc, parse_album, hf, Outcome.andThen, ht]
    rfl
  · intro ht
    simp only [parse_track_list, hc, parse_album, hf, Outcome.andThen, ht]
    rfl

theorem parse_album_error_key_not_found_witness :
    (parse_track_list w_album_error "https://music.yandex.ru/album/42").1
      = .notFoundExc "Album https://music.yandex.ru/album/42 not found" :=
  (parse_album_error_key_not_found w_album_error
    "https://music.yandex.ru/album/42" "42"
    [("error", .str "no-rights"), ("title", .str "X"), ("artists", .arr [])]
    (by decide) rfl).1 (by decide)

/-! ## C2: status-code mapping of the HTTP layer -/

/-- C2 fails on the code: on the concerts endpoint the
`except InternalServiceErrorException` branch of `get_concerts`
(src/main.py lines 104-108) assigns `ResponseCode.ARTIST_NOT_FOUND` — the
same code the `except NotFoundException` branch assigns — even though its
message reads `'Internal service error'`; the track-lists endpoint maps
the two kinds to the two distinct codes `TRACK_LIST_NOT_FOUND` and
`INTERNAL_ERROR`. -/
theorem concerts_endpoint_collapses_error_codes :
    parse_concerts w_http500 7 = .internalExc
      "Yandex Music API returned \"500 - Internal Server Error\" from /artists/7/brief-info"
  ∧ get_concerts w_http500 7 =
      some ⟨⟨.ARTIST_NOT_FOUND, "Internal service error"⟩, none⟩
  ∧ parse_concerts w_http404 7 = .notFoundExc "Artist 7 not found"
  ∧ get_concerts w_http404 7 =
      some ⟨⟨.ARTIST_NOT_FOUND, "Artist 7 not found"⟩, none⟩
  ∧ ResponseCode.ARTIST_NOT_FOUND ≠ ResponseCode.INTERNAL_ERROR
  ∧ get_tracks_list_info w_http500 "https://music.yandex.ru/album/1" =
      some ⟨⟨.INTERNAL_ERROR, "Internal service error"⟩, none⟩ := by
  exact ⟨by decide, by decide, by decide, by decide, by decide, by decide⟩

/-! ## C4: no partial concert batches -/

/-- C4: once the brief-info fetch has succeeded and the `concerts` value
has been obtained, the failure of any single element's extraction makes
`parse_concerts` return exactly one `InternalServiceErrorException` (never
`NotFoundException`) and no concerts, regardless of the other elements. -/
theorem parse_concerts_no_partial (w : World) (artist_id : Int)
    (kvs : List (String × Json)) (cj : Json) (cs : List Json) :
    fetch_artist_data w (artist_brief_info_api_uri artist_id)
      ("Artist " ++ toString artist_id ++ " not found") = .ok kvs →
    List.lookup "concerts" kvs = some cj →
    pyIterate cj = some cs →
    (∃ c ∈ cs, (extract_concert w.strptime c).isOk = false) →
    parse_concerts w artist_id =
      .internalExc ("Parsing concerts of artist " ++ toString artist_id ++ " failed") := by
  intro hf hl hi hbad
  obtain ⟨c, hc, hfail⟩ := hbad
  simp only [parse_concerts, hf, Outcome.andThen, get_dict_value, hl, hi]
  apply catch_as_internal_of_not_ok
  cases hm : mapOutcome (extract_concert w.strptime) cs with
  | ok ys =>
    have := mapOutcome_ok_mem hm c hc
    rw [hfail] at this
    cases this
  | notFoundExc m => rfl
  | internalExc m => rfl
  | otherExc => rfl

theorem parse_concerts_no_partial_witness :
    parse_concerts w_concerts 1 = .internalExc "Parsing concerts of artist 1 failed" :=
  parse_concerts_no_partial w_concerts 1 concerts_payload
    (.arr [frag_ok, frag_no_title]) [frag_ok, frag_no_title]
    rfl rfl rfl
    ⟨frag_no_title, List.Mem.tail _ (List.Mem.head _), by decide⟩


/-! ## C7: missing datetime key -/

/-- C7 fails on the code: `__extract_concert` reads the `datetime` key with
`get_dict_value`, so a concert fragment lacking it raises `KeyError` (for
any behaviour of `strptime`) and the whole `parse_concerts` batch fails
with `InternalServiceErrorException`, although the pydantic `Concert`
model declares `concert_datetime` optional with default `None` and the
parsed value is discarded anyway (see `extract_concert`). -/
theorem extract_concert_missing_datetime_aborts :
    (∀ st : String → Option Nat, extract_concert st frag_no_datetime = .otherExc)
  ∧ parse_concerts w_concerts_no_datetime 1 =
      .internalExc "Parsing concerts of artist 1 failed" :=
  ⟨fun _ => rfl, by decide⟩

/-! ## C10: the parsed datetime is discarded -/

/-- C10: every `Concert` that `__extract_concert` successfully builds has
`concert_datetime = none`, because the parsed timestamp is passed under
the keyword name `datetime`, which is not a field of the `Concert` model
and is silently ignored by pydantic; yet a missing `datetime` key, or a
string value the `strptime` oracle rejects, still aborts the extraction. -/
theorem extract_concert_discards_datetime (st : String → Option Nat) (frag : Json) :
    (∀ c, extract_concert st frag = .ok c → c.concert_datetime = none)
  ∧ (∀ kvs, frag = .obj kvs → List.lookup "datetime" kvs = none →
      extract_concert st frag = .otherExc)
  ∧ (∀ kvs s, frag = .obj kvs → List.lookup "datetime" kvs = some (.str s) →
      st s = none → extract_concert st frag = .otherExc) := by
  refine ⟨?_, ?_, ?_⟩
  · intro c h
    cases frag with
    | obj kvs =>
      simp only [extract_concert] at h
      obtain ⟨_, -, h⟩ := Outcome.andThen_eq_ok h
      obtain ⟨_, -, h⟩ := Outcome.andThen_eq_ok h
      obtain ⟨_, -, h⟩ := Outcome.andThen_eq_ok h
      obtain ⟨_, -, h⟩ := Outcome.andThen_eq_ok h
      obtain ⟨_, -, h⟩ := Outcome.andThen_eq_ok h
      obtain ⟨_, -, h⟩ := Outcome.andThen_eq_ok h
      obtain ⟨_, -, h⟩ := Outcome.andThen_eq_ok h
      obtain ⟨_, -, h⟩ := Outcome.andThen_eq_ok h
      obtain ⟨_, -, h⟩ := Outcome.andThen_eq_ok h
      obtain ⟨_, -, h⟩ := Outcome.andThen_eq_ok h
      obtain ⟨_, -, h⟩ := Outcome.andThen_eq_ok h
      obtain ⟨_, -, h⟩ := Outcome.andThen_eq_ok h
      obtain ⟨_, -, h⟩ := Outcome.andThen_eq_ok h
      obtain ⟨_, -, h⟩ := Outcome.andThen_eq_ok h
      obtain ⟨_, -, h⟩ := Outcome.andThen_eq_ok h
      obtain ⟨_, -, h⟩ := Outcome.andThen_eq_ok h
      obtain ⟨_, -, h⟩ := Outcome.andThen_eq_ok h
      injection h with h2
      subst h2
      rfl
    | null => cases h
    | bool b => cases h
    | num n => cases h
    | str s => cases h
    | arr xs => cases h
  · intro kvs hfrag hl
    subst hfrag
    simp only [extract_concert, get_dict_value, hl]
    rfl
  · intro kvs s hfrag hl hst
    subst hfrag
    simp only [extract_concert, get_dict_value, hl]
    rw [Outcome.ok_andThen]
    simp only [hst]
    rfl

theorem extract_concert_discards_datetime_witness :
    extract_concert st0 frag_ok = .ok concert_ok
  ∧ concert_ok.concert_datetime = none :=
  ⟨by decide, (extract_concert_discards_datetime st0 frag_ok).1 concert_ok (by decide)⟩

/-! ## C8: artist deduplication by set semantics -/

theorem insertArtist_nodup {l : List Artist} {a : Artist} (h : l.Nodup) :
    (insertArtist l a).Nodup := by
  unfold insertArtist
  split
  · exact h
  · next hna => simp [List.nodup_append, h, hna]

theorem mem_insertArtist {l : List Artist} {a x : Artist} :
    x ∈ insertArtist l a ↔ x ∈ l ∨ x = a := by
  unfold insertArtist
  split
  · next hmem =>
    constructor
    · exact Or.inl
    · rintro (hx | rfl)
      · exact hx
      · exact hmem
  · simp [List.mem_append]

theorem foldl_insertArtist_nodup (g : List Artist) (acc : List Artist) (h : acc.Nodup) :
    (g.foldl insertArtist acc).Nodup := by
  induction g generalizing acc with
  | nil => exact h
  | cons x xs ih => exact ih _ (insertArtist_nodup h)

theorem mem_foldl_insertArtist (g acc : List Artist) (x : Artist) :
    x ∈ g.foldl insertArtist acc ↔ x ∈ acc ∨ x ∈ g := by
  induction g generalizing acc with
  | nil => simp
  | cons y ys ih =>
    rw [List.foldl_cons, ih, mem_insertArtist, List.mem_cons]
    tauto

theorem extract_playlist_eq_ok {url : String} {data : Json} {tl : TrackList}
    (h : extract_playlist url data = .ok tl) :
    ∃ g, playlist_gathered_artists data = .ok g
      ∧ tl.artists = g.foldl insertArtist [] := by
  simp only [extract_playlist] at h
  obtain ⟨g, hg, h⟩ := Outcome.andThen_eq_ok h
  obtain ⟨kvs, -, h⟩ := Outcome.andThen_eq_ok h
  obtain ⟨img, -, h⟩ := Outcome.andThen_eq_ok h
  obtain ⟨tj, -, h⟩ := Outcome.andThen_eq_ok h
  obtain ⟨title, -, h⟩ := Outcome.andThen_eq_ok h
  split at h
  · cases h
  · injection h with h2
    subst h2
    exact ⟨g, hg, rfl⟩

theorem extract_album_eq_ok {url : String} {data : Json} {tl : TrackList}
    (h : extract_album url data = .ok tl) :
    ∃ g, album_gathered_artists data = .ok g
      ∧ tl.artists = g.foldl insertArtist [] := by
  simp only [extract_album] at h
  obtain ⟨g, hg, h⟩ := Outcome.andThen_eq_ok h
  obtain ⟨kvs, -, h⟩ := Outcome.andThen_eq_ok h
  obtain ⟨img, -, h⟩ := Outcome.andThen_eq_ok h
  obtain ⟨tj, -, h⟩ := Outcome.andThen_eq_ok h
  obtain ⟨title, -, h⟩ := Outcome.andThen_eq_ok h
  split at h
  · cases h
  · injection h with h2
    subst h2
    exact ⟨g, hg, rfl⟩

/-- C8: every track list returned by `parse_track_list` carries a
duplicate-free artist list whose members are exactly the artist
occurrences gathered from the fetched payload — an artist referenced any
number of times (same `(name, yandex_music_id)`, the equality of the
frozen pydantic model) appears exactly once. -/
theorem track_list_artists_dedup (w : World) (url : String) (tl : TrackList)
    (h : (parse_track_list w url).1 = .ok tl) :
    tl.artists.Nodup
  ∧ ∃ src, track_list_source_artists w url = some src
      ∧ (∀ a, a ∈ tl.artists ↔ a ∈ src) := by
  cases hc : classifyTrackListUrl url with
  | unrecognized =>
    simp only [parse_track_list, hc] at h
    cases h
  | playlist u p =>
    simp only [parse_track_list, hc, parse_playlist] at h
    cases hf : fetch_yandex_music_api_data w (playlist_api_uri u p)
        ("Playlist " ++ url ++ " not found") with
    | ok data =>
      rw [hf, Outcome.ok_andThen] at h
      have hex := catch_as_internal_eq_ok h
      obtain ⟨g, hg, hart⟩ := extract_playlist_eq_ok hex
      refine ⟨?_, g, ?_, ?_⟩
      · rw [hart]; exact foldl_insertArtist_nodup g [] List.nodup_nil
      · simp only [track_list_source_artists, hc, hf, hg]; rfl
      · intro a; rw [hart, mem_foldl_insertArtist]; simp
    | notFoundExc m => rw [hf] at h; cases h
    | internalExc m => rw [hf] at h; cases h
    | otherExc => rw [hf] at h; cases h
  | album aid =>
    simp only [parse_track_list, hc, parse_album] at h
    cases hf : fetch_yandex_music_api_data w (album_api_uri aid)
        ("Album " ++ url ++ " not found") with
    | ok data =>
      rw [hf, Outcome.ok_andThen] at h
      obtain ⟨kvs, -, h⟩ := Outcome.andThen_eq_ok h
      split at h
      · cases h
      · have hex := catch_as_internal_eq_ok h
        obtain ⟨g, hg, hart⟩ := extract_album_eq_ok hex
        refine ⟨?_, g, ?_, ?_⟩
        · rw [hart]; exact foldl_insertArtist_nodup g [] List.nodup_nil
        · simp only [track_list_source_artists, hc, hf, hg]; rfl
        · intro a; rw [hart, mem_foldl_insertArtist]; simp
    | notFoundExc m => rw [hf] at h; cases h
    | internalExc m => rw [hf] at h; cases h
    | otherExc => rw [hf] at h; cases h

theorem track_list_artists_dedup_witness :
    tl_playlist.artists.Nodup
  ∧ ∃ src, track_list_source_artists w_playlist
        "https://music.yandex.ru/users/alice/playlists/1000" = some src
      ∧ (∀ a, a ∈ tl_playlist.artists ↔ a ∈ src) :=
  track_list_artists_dedup w_playlist
    "https://music.yandex.ru/users/alice/playlists/1000" tl_playlist (by decide)

/-! ## C3: URL classifier lemmas -/

theorem exists_findSome?_of_mem {α β : Type} {f : α → Option β} {l : List α} {a : α}
    {b : β} (ha : a ∈ l) (hb : f a = some b) : ∃ c, l.findSome? f = some c := by
  induction l with
  | nil => cases ha
  | cons x xs ih =>
    rw [List.findSome?_cons]
    cases hfx : f x with
    | some v => exact ⟨v, rfl⟩
    | none =>
      rcases List.mem_cons.mp ha with rfl | hmem
      · rw [hfx] at hb; cases hb
      · exact ih hmem

theorem mem_splits {l a b : List Char} :
    (a, b) ∈ splits l ↔ a ++ b = l := by
  constructor
  · intro h
    simp only [splits, List.mem_map, List.mem_reverse, List.mem_range] at h
    obtain ⟨n, hn, heq⟩ := h
    have h1 : l.take n = a := congrArg Prod.fst heq
    have h2 : l.drop n = b := congrArg Prod.snd heq
    rw [← h1, ← h2, List.take_append_drop]
  · intro h
    simp only [splits, List.mem_map, List.mem_reverse, List.mem_range]
    refine ⟨a.length, ?_, ?_⟩
    · have : l.length = a.length + b.length := by rw [← h, List.length_append]
      omega
    · rw [← h, List.take_left, List.drop_left]

theorem strip_trailing_newline_of_no_newline {l : List Char} (h : '\n' ∉ l) :
    strip_trailing_newline l = l := by
  unfold strip_trailing_newline
  split
  · next hl =>
    exfalso
    apply h
    obtain ⟨hne, heq⟩ := List.mem_getLast?_eq_getLast (l := l) (Option.mem_def.mpr hl)
    rw [heq]
    exact List.getLast_mem hne
  · rfl

theorem ne_nil_of_isEmpty_eq_false {l : List Char} (h : l.isEmpty = false) : l ≠ [] := by
  intro heq
  subst heq
  cases h

theorem match_tail_eq_some {rest u p : List Char}
    (h : match_tail rest = some (u, p)) :
    rest = u ++ playlistsLit ++ p ∧ u ≠ [] ∧ (∀ c ∈ u, isPySpace c = false)
      ∧ p ≠ [] ∧ (∀ c ∈ p, isPySpace c = false) := by
  obtain ⟨⟨u0, t⟩, hmem, hf⟩ := List.exists_of_findSome?_eq_some h
  simp only at hf
  split at hf
  · next hcond =>
    split at hf
    · next hcond2 =>
      injection hf with hf2
      have hu0 : u0 = u := congrArg Prod.fst hf2
      have hp0 : t.drop playlistsLit.length = p := congrArg Prod.snd hf2
      simp only [Bool.and_eq_true, Bool.not_eq_true', List.all_eq_true] at hcond hcond2
      obtain ⟨⟨hne, hall⟩, hpre⟩ := hcond
      obtain ⟨hpne, hpall⟩ := hcond2
      obtain ⟨r, hr⟩ := List.isPrefixOf_iff_prefix.mp hpre
      have hdrop : t.drop playlistsLit.length = r := by rw [← hr, List.drop_left]
      subst hu0
      rw [hdrop] at hp0
      subst hp0
      refine ⟨?_, ne_nil_of_isEmpty_eq_false hne, ?_, ?_, ?_⟩
      · rw [← mem_splits.mp hmem, ← hr, List.append_assoc]
      · intro c hc; simpa using hall c hc
      · exact ne_nil_of_isEmpty_eq_false (by simpa [hdrop] using hpne)
      · intro c hc; rw [hdrop] at hpall; simpa using hpall c hc
    · cases hf
  · cases hf

theorem match_tail_complete {u p : List Char} (hu : u ≠ [])
    (hu2 : ∀ c ∈ u, isPySpace c = false) (hp : p ≠ [])
    (hp2 : ∀ c ∈ p, isPySpace c = false) :
    ∃ q, match_tail (u ++ playlistsLit ++ p) = some q := by
  have hmem : (u, playlistsLit ++ p) ∈ splits (u ++ playlistsLit ++ p) :=
    mem_splits.mpr (by rw [List.append_assoc])
  apply exists_findSome?_of_mem hmem (b := (u, p))
  have hc1 : ((!u.isEmpty && u.all (fun c => !isPySpace c))
      && playlistsLit.isPrefixOf (playlistsLit ++ p)) = true := by
    simp only [Bool.and_eq_true, Bool.not_eq_true', List.all_eq_true]
    refine ⟨⟨?_, ?_⟩, ?_⟩
    · cases u with
      | nil => exact absurd rfl hu
      | cons x xs => rfl
    · intro c hc; simpa using hu2 c hc
    · exact (@List.isPrefixOf_iff_prefix Char _ _ playlistsLit
        (playlistsLit ++ p)).mpr (List.prefix_append _ _)
  simp only [hc1, if_true, List.drop_left]
  have hc2 : (!p.isEmpty && p.all (fun c => !isPySpace c)) = true := by
    simp only [Bool.and_eq_true, Bool.not_eq_true', List.all_eq_true]
    refine ⟨?_, ?_⟩
    · cases p with
      | nil => exact absurd rfl hp
      | cons x xs => rfl
    · intro c hc; simpa using hp2 c hc
  simp only [hc2, if_true]

theorem match_playlist_core_eq_some {l u p : List Char}
    (h : match_playlist_core l = some (u, p)) : PlaylistShape l u p := by
  obtain ⟨⟨a, rest⟩, hmem, hf⟩ := List.exists_of_findSome?_eq_some h
  simp only at hf
  split at hf
  · next hcond =>
    simp only [Bool.and_eq_true] at hcond
    obtain ⟨hanl, hpre⟩ := hcond
    obtain ⟨r, hr⟩ := List.isPrefixOf_iff_prefix.mp hpre
    have hdrop : rest.drop usersLit.length = r := by rw [← hr, List.drop_left]
    rw [hdrop] at hf
    obtain ⟨hres, hu, hu2, hp, hp2⟩ := match_tail_eq_some hf
    refine ⟨⟨a, ?_⟩, hu, hu2, hp, hp2⟩
    rw [← mem_splits.mp hmem, ← hr, hres]
    simp [List.append_assoc]
  · cases hf

theorem match_playlist_core_complete {l u p : List Char} (hnl : '\n' ∉ l)
    (hshape : PlaylistShape l u p) : ∃ q, match_playlist_core l = some q := by
  obtain ⟨⟨a, ha⟩, hu, hu2, hp, hp2⟩ := hshape
  have hmem : (a, usersLit ++ u ++ playlistsLit ++ p) ∈ splits l :=
    mem_splits.mpr (by rw [ha]; simp [List.append_assoc])
  obtain ⟨q, hq⟩ := match_tail_complete hu hu2 hp hp2
  apply exists_findSome?_of_mem hmem (b := q)
  have hc1 : (a.all (fun c => !(c == '\n'))
      && usersLit.isPrefixOf (usersLit ++ u ++ playlistsLit ++ p)) = true := by
    simp only [Bool.and_eq_true, List.all_eq_true]
    constructor
    · intro c hc
      have hcl : c ∈ l := by
        rw [ha]
        simp only [List.mem_append]
        exact Or.inl (Or.inl (Or.inl (Or.inl hc)))
      simp only [Bool.not_eq_true']
      exact beq_eq_false_iff_ne.mpr fun heq => hnl (heq ▸ hcl)
    · exact (@List.isPrefixOf_iff_prefix Char _ _ usersLit
        (usersLit ++ u ++ playlistsLit ++ p)).mpr
        (by rw [List.append_assoc, List.append_assoc]; exact List.prefix_append _ _)
  simp only [hc1, if_true]
  rw [show usersLit ++ u ++ playlistsLit ++ p = usersLit ++ (u ++ playlistsLit ++ p) by
    simp [List.append_assoc], List.drop_left]
  exact hq

theorem match_album_core_eq_some {l a : List Char}
    (h : match_album_core l = some a) : AlbumShape l a := by
  obtain ⟨⟨b, rest⟩, hmem, hf⟩ := List.exists_of_findSome?_eq_some h
  simp only at hf
  split at hf
  · next hcond =>
    split at hf
    · next hcond2 =>
      injection hf with hf2
      simp only [Bool.and_eq_true, Bool.not_eq_true', List.all_eq_true] at hcond hcond2
      obtain ⟨hbnl, hpre⟩ := hcond
      obtain ⟨hane, hall⟩ := hcond2
      obtain ⟨r, hr⟩ := List.isPrefixOf_iff_prefix.mp hpre
      have hdrop : rest.drop albumLit.length = r := by rw [← hr, List.drop_left]
      rw [hdrop] at hf2 hane hall
      subst hf2
      refine ⟨⟨b, ?_⟩, ne_nil_of_isEmpty_eq_false hane, ?_⟩
      · rw [← mem_splits.mp hmem, ← hr]
        simp [List.append_assoc]
      · intro c hc; simpa using hall c hc
    · cases hf
  · cases hf

theorem match_album_core_complete {l a : List Char} (hnl : '\n' ∉ l)
    (hshape : AlbumShape l a) : ∃ q, match_album_core l = some q := by
  obtain ⟨⟨b, hb⟩, ha, ha2⟩ := hshape
  have hmem : (b, albumLit ++ a) ∈ splits l :=
    mem_splits.mpr (by rw [hb]; simp [List.append_assoc])
  apply exists_findSome?_of_mem hmem (b := a)
  have hc1 : (b.all (fun c => !(c == '\n')) && albumLit.isPrefixOf (albumLit ++ a)) = true := by
    simp only [Bool.and_eq_true, List.all_eq_true]
    constructor
    · intro c hc
      have hcl : c ∈ l := by
        rw [hb]
        simp only [List.mem_append]
        exact Or.inl (Or.inl hc)
      simp only [Bool.not_eq_true']
      exact beq_eq_false_iff_ne.mpr fun heq => hnl (heq ▸ hcl)
    · exact (@List.isPrefixOf_iff_prefix Char _ _ albumLit (albumLit ++ a)).mpr
        (List.prefix_append _ _)
  simp only [hc1, if_true, List.drop_left]
  have hc2 : (!a.isEmpty && a.all (fun c => !isPySpace c)) = true := by
    simp only [Bool.and_eq_true, Bool.not_eq_true', List.all_eq_true]
    refine ⟨?_, ?_⟩
    · cases a with
      | nil => exact absurd rfl ha
      | cons x xs => rfl
    · intro c hc; simpa using ha2 c hc
  simp only [hc2, if_true]

theorem pyMatchPlaylist_eq_some {url us ps : String} (hnl : '\n' ∉ url.data)
    (h : pyMatchPlaylist url = some (us, ps)) :
    PlaylistShape url.data us.data ps.data := by
  unfold pyMatchPlaylist at h
  rw [strip_trailing_newline_of_no_newline hnl] at h
  obtain ⟨⟨u0, p0⟩, hcore, hmk⟩ := Option.map_eq_some'.mp h
  have h1 : String.mk u0 = us := congrArg Prod.fst hmk
  have h2 : String.mk p0 = ps := congrArg Prod.snd hmk
  subst h1
  subst h2
  exact match_playlist_core_eq_some hcore

theorem pyMatchPlaylist_isSome_of_shape {url : String} {u p : List Char}
    (hnl : '\n' ∉ url.data) (hs : PlaylistShape url.data u p) :
    ∃ q, pyMatchPlaylist url = some q := by
  obtain ⟨⟨u0, p0⟩, hq⟩ := match_playlist_core_complete hnl hs
  exact ⟨(String.mk u0, String.mk p0), by
    unfold pyMatchPlaylist
    rw [strip_trailing_newline_of_no_newline hnl, hq]
    rfl⟩

theorem pyMatchAlbum_eq_some {url a2 : String} (hnl : '\n' ∉ url.data)
    (h : pyMatchAlbum url = some a2) : AlbumShape url.data a2.data := by
  unfold pyMatchAlbum at h
  rw [strip_trailing_newline_of_no_newline hnl] at h
  obtain ⟨a0, hcore, hmk⟩ := Option.map_eq_some'.mp h
  subst hmk
  exact match_album_core_eq_some hcore

theorem pyMatchAlbum_isSome_of_shape {url : String} {a : List Char}
    (hnl : '\n' ∉ url.data) (hs : AlbumShape url.data a) :
    ∃ q, pyMatchAlbum url = some q := by
  obtain ⟨a0, hq⟩ := match_album_core_complete hnl hs
  exact ⟨String.mk a0, by
    unfold pyMatchAlbum
    rw [strip_trailing_newline_of_no_newline hnl, hq]
    rfl⟩

/-- C3 amended: for every input URL string containing no newline
character, the classifier behind `parse_track_list` matches the
end-anchored shapes with playlist checked before album: a URL of playlist
shape is classified as a playlist and the extracted pair itself forms such
an end-anchored decomposition (hence equals `(U, P)` whenever the
decomposition is unique); otherwise a URL of album shape is classified as
an album with such an `A`; a URL of neither shape is unrecognized, and
`parse_track_list` then raises `NotFoundException` immediately with no
fetch performed. -/
theorem track_list_url_classifier_spec (url : String) (hnl : '\n' ∉ url.data) :
    (∀ u p : List Char, PlaylistShape url.data u p →
      ∃ us ps : String, classifyTrackListUrl url = .playlist us ps
        ∧ PlaylistShape url.data us.data ps.data)
  ∧ (∀ us ps : String, classifyTrackListUrl url = .playlist us ps →
      PlaylistShape url.data us.data ps.data)
  ∧ (∀ a : List Char, AlbumShape url.data a → (¬ ∃ u p, PlaylistShape url.data u p) →
      ∃ a2 : String, classifyTrackListUrl url = .album a2 ∧ AlbumShape url.data a2.data)
  ∧ (∀ a2 : String, classifyTrackListUrl url = .album a2 →
      AlbumShape url.data a2.data ∧ ¬ ∃ u p, PlaylistShape url.data u p)
  ∧ ((¬ ∃ u p, PlaylistShape url.data u p) → (¬ ∃ a, AlbumShape url.data a) →
      classifyTrackListUrl url = .unrecognized
      ∧ ∀ w, parse_track_list w url =
          (.notFoundExc ("Track list " ++ url ++ " has incorrect URL"), [])) := by
  refine ⟨?_, ?_, ?_, ?_, ?_⟩
  · intro u p hs
    obtain ⟨⟨us, ps⟩, hq⟩ := pyMatchPlaylist_isSome_of_shape hnl hs
    exact ⟨us, ps, by simp [classifyTrackListUrl, hq], pyMatchPlaylist_eq_some hnl hq⟩
  · intro us ps hc
    cases hm : pyMatchPlaylist url with
    | some q =>
      obtain ⟨qu, qp⟩ := q
      simp only [classifyTrackListUrl, hm] at hc
      injection hc with h1 h2
      subst h1
      subst h2
      exact pyMatchPlaylist_eq_some hnl hm
    | none =>
      simp only [classifyTrackListUrl, hm] at hc
      cases hm2 : pyMatchAlbum url with
      | some a0 => rw [hm2] at hc; cases hc
      | none => rw [hm2] at hc; cases hc
  · intro a hs hnp
    have hmp : pyMatchPlaylist url = none := by
      cases hm : pyMatchPlaylist url with
      | none => rfl
      | some q =>
        obtain ⟨qu, qp⟩ := q
        exact absurd ⟨qu.data, qp.data, pyMatchPlaylist_eq_some hnl hm⟩ hnp
    obtain ⟨a0, ha0⟩ := pyMatchAlbum_isSome_of_shape hnl hs
    exact ⟨a0, by simp [classifyTrackListUrl, hmp, ha0], pyMatchAlbum_eq_some hnl ha0⟩
  · intro a2 hc
    cases hm : pyMatchPlaylist url with
    | some q => simp only [classifyTrackListUrl, hm] at hc; cases hc
    | none =>
      simp only [classifyTrackListUrl, hm] at hc
      cases hm2 : pyMatchAlbum url with
      | none => rw [hm2] at hc; cases hc
      | some a0 =>
        rw [hm2] at hc
        injection hc with h1
        subst h1
        refine ⟨pyMatchAlbum_eq_some hnl hm2, ?_⟩
        rintro ⟨u, p, hs⟩
        obtain ⟨q, hq⟩ := pyMatchPlaylist_isSome_of_shape hnl hs
        rw [hm] at hq
        cases hq
  · intro hnp hna
    have hmp : pyMatchPlaylist url = none := by
      cases hm : pyMatchPlaylist url with
      | none => rfl
      | some q =>
        obtain ⟨qu, qp⟩ := q
        exact absurd ⟨qu.data, qp.data, pyMatchPlaylist_eq_some hnl hm⟩ hnp
    have hma : pyMatchAlbum url = none := by
      cases hm : pyMatchAlbum url with
      | none => rfl
      | some a0 => exact absurd ⟨a0.data, pyMatchAlbum_eq_some hnl hm⟩ hna
    have hcl : classifyTrackListUrl url = .unrecognized := by
      simp [classifyTrackListUrl, hmp, hma]
    exact ⟨hcl, fun w => by simp [parse_track_list, hcl]⟩

theorem track_list_url_classifier_spec_witness :
    ∃ us ps : String,
      classifyTrackListUrl "https://music.yandex.ru/users/alice/playlists/1000"
        = .playlist us ps
      ∧ PlaylistShape ("https://music.yandex.ru/users/alice/playlists/1000").data
          us.data ps.data :=
  (track_list_url_classifier_spec "https://music.yandex.ru/users/alice/playlists/1000"
      (by decide)).1 "alice".data "1000".data
    ⟨⟨"https://music.yandex.ru".data, by decide⟩, by decide, by decide, by decide, by decide⟩

theorem playlistShape_users_segment {l u p : List Char} (hs : PlaylistShape l u p) :
    usersLit <:+: l := by
  obtain ⟨⟨a, ha⟩, -, -, -, -⟩ := hs
  exact ⟨a, u ++ playlistsLit ++ p, by rw [ha]; simp [List.append_assoc]⟩

/-- C3 counterexample: the source classifier is not end-anchored in the
claim's sense on newline-containing URLs.  The URL `"a\nb/album/x"` ends
in `/album/x` with `x` a nonempty non-whitespace sequence and matches no
playlist shape, so the claim classifies it as the album `x`; Python's `.`
does not match a newline, so `re.match` fails on both patterns and the
code treats the URL as unrecognized.  Also, on ambiguous playlist URLs the
extracted pair is the greedy one, not every decomposition's pair: the URL
`"x/users/a/playlists/b/playlists/c"` ends in `/users/a/playlists/` ++
`b/playlists/c`, yet the classifier extracts `("a/playlists/b", "c")`. -/
theorem track_list_url_classifier_counterexample :
    AlbumShape ("a\nb/album/x").data "x".data
  ∧ (¬ ∃ u p, PlaylistShape ("a\nb/album/x").data u p)
  ∧ classifyTrackListUrl "a\nb/album/x" = .unrecognized
  ∧ PlaylistShape ("x/users/a/playlists/b/playlists/c").data
      "a".data "b/playlists/c".data
  ∧ classifyTrackListUrl "x/users/a/playlists/b/playlists/c"
      = .playlist "a/playlists/b" "c" := by
  refine ⟨⟨⟨"a\nb".data, by decide⟩, by decide, by decide⟩, ?_, by decide,
    ⟨⟨"x".data, by decide⟩, by decide, by decide, by decide, by decide⟩, by decide⟩
  rintro ⟨u, p, hs⟩
  exact absurd (playlistShape_users_segment hs) (by decide)
